import Mathlib

/-!
Shallow embedding of `mlx_memory_optimized_server.py` and `mlx_email_helper.py`
(repository `ttunguz/scripts`).

Conventions of the embedding:
* Python `str` is modelled as Lean `String`; `len`, slicing and `split` act on
  Unicode code points on both sides.
* Python values produced by `json.loads` are modelled by the inductive `PyVal`.
  JSON objects are modelled as association lists with distinct keys (duplicate
  keys in a JSON text, which Python resolves last-wins, are outside the
  modelled input space).
* `json.loads` itself is the standard library, an external collaborator: the
  handler that depends on it takes its result as an input
  (`Option PyVal`, `none` modelling a raised `json.JSONDecodeError`).
* Calls into `self.model_manager.generate_with_memory_management` are recorded
  as `GenCall` values; the function itself is modelled separately
  (`generate_with_memory_management`) over an abstract backend.
* `send_error s m` is modelled by `HttpOutcome.httpError s m`; the 200 JSON
  responses keep the fields the claims talk about (model name, text); the
  wall-clock timestamps (`time.time()`) in the JSON envelopes are not modelled.
-/

/-- Python values as returned by `json.loads`. -/
inductive PyVal where
  | null
  | bool (b : Bool)
  | int (n : Int)
  | str (s : String)
  | list (xs : List PyVal)
  | dict (xs : List (String × PyVal))

/-- Python truthiness (`bool(v)`) for the modelled values. -/
def pyTruthy : PyVal → Bool
  | .null => false
  | .bool b => b
  | .int n => n ≠ 0
  | .str s => s ≠ ""
  | .list xs => ¬ xs.isEmpty
  | .dict xs => ¬ xs.isEmpty

/-- Python `v == k` for a string literal `k`: equality with a `str` holds only
for equal strings, and is `False` against any other modelled value. -/
def pyEqStr (k : String) : PyVal → Bool
  | .str s => s = k
  | _ => false

/-- Substring test, modelling Python `k in s` for strings (the empty string is
in every string; otherwise `splitOn` finds at least one occurrence). -/
def strContains (s k : String) : Bool :=
  k = "" || (s.splitOn k).length ≥ 2

/-- Python `k in v` (membership test); raises `TypeError` on non-iterables. -/
def pyContains (v : PyVal) (k : String) : Except String Bool :=
  match v with
  | .dict d => .ok (d.any (fun kv => kv.1 = k))
  | .list xs => .ok (xs.any (pyEqStr k))
  | .str s => .ok (strContains s k)
  | _ => .error "TypeError: argument is not iterable"

/-- Python `v[k]` for a string key `k`; only dictionaries support it, other
values raise `TypeError` (or `KeyError` when the key is missing). -/
def pySubscript (v : PyVal) (k : String) : Except String PyVal :=
  match v with
  | .dict d =>
      match d.lookup k with
      | some x => .ok x
      | none => .error ("KeyError: " ++ k)
  | .str _ => .error "TypeError: string indices must be integers"
  | .list _ => .error "TypeError: list indices must be integers"
  | _ => .error "TypeError: object is not subscriptable"

/-- Python `v[0]`. -/
def pyIndexZero (v : PyVal) : Except String PyVal :=
  match v with
  | .list (x :: _) => .ok x
  | .list [] => .error "IndexError: list index out of range"
  | .str s =>
      match s.data with
      | c :: _ => .ok (.str (String.singleton c))
      | [] => .error "IndexError: string index out of range"
  | _ => .error "TypeError: object is not subscriptable"

/-- Python `v.get(k, dflt)`; only dictionaries have a `get` attribute. -/
def pyDictGet (v : PyVal) (k : String) (dflt : PyVal) : Except String PyVal :=
  match v with
  | .dict d => .ok ((d.lookup k).getD dflt)
  | _ => .error "AttributeError: object has no attribute get"

/-- Python `len(v)`; raises `TypeError` on values without a length. -/
def pyLen (v : PyVal) : Except String Nat :=
  match v with
  | .str s => .ok s.length
  | .list xs => .ok xs.length
  | .dict d => .ok d.length
  | _ => .error "TypeError: object has no len"

/-- Python `str.strip()` with no argument: remove leading and trailing
whitespace.  (Defined over the character list so that it reduces in the
kernel; Lean's `String.trim` is extensionally the same operation.) -/
def pyStrip (s : String) : String :=
  String.mk (((s.data.dropWhile Char.isWhitespace).reverse.dropWhile Char.isWhitespace).reverse)

/-- Python `s[-n:]` on a string, for `n > 0`: the trailing `n` code points
(the whole string when it is shorter than `n`). -/
def pySliceLast (n : Nat) (s : String) : String :=
  s.drop (s.length - n)

/-- The prompt-truncation step shared by the server handlers
(`if len(prompt) > 50000: prompt = prompt[-8000:]`). -/
def truncatePrompt (p : String) : String :=
  if p.length > 50000 then pySliceLast 8000 p else p

/-- One recorded invocation of
`self.model_manager.generate_with_memory_management(prompt, max_tokens, temperature)`. -/
structure GenCall where
  prompt : PyVal
  max_tokens : Int
  temperature : Rat

/-- The observable HTTP outcome of a POST handler: a 200 OpenAI-completion
response, a 200 Ollama response, or `send_error status message`. -/
inductive HttpOutcome where
  | completionOk (model : String) (text : String) (prompt_tokens completion_tokens : Nat)
  | ollamaOk (model : String) (response : String)
  | httpError (status : Nat) (message : String)

/-- HTTP status of an outcome. -/
def statusOf : HttpOutcome → Nat
  | .completionOk _ _ _ _ => 200
  | .ollamaOk _ _ => 200
  | .httpError s _ => s

/-- Python `str.split()` without arguments: split on whitespace runs, dropping
empty pieces; the handlers use its length as a token-count estimate. -/
def pyWordCount (s : String) : Nat :=
  ((s.split Char.isWhitespace).filter (fun w => w ≠ "")).length

/-- The fields of the JSON body that `handle_completion` /
`handle_ollama_generate` read, with `none` for an absent field.  The embedding
restricts the input space to bodies in which the fields that are present have
the types the handler consumes them at. -/
structure CompletionRequest where
  prompt : Option String
  max_tokens : Option Int
  temperature : Option Rat

/-- `handle_completion` (`POST /v1/completions`), parameterized by the manager
model name and by the behaviour `gen` of
`generate_with_memory_management`.  Returns the HTTP outcome together with the
list of generate calls issued. -/
def handle_completion (model_name : String) (gen : PyVal → Int → Rat → String)
    (req : CompletionRequest) : HttpOutcome × List GenCall :=
  let prompt0 := req.prompt.getD ""
  let max_tokens := min (req.max_tokens.getD 512) 32768
  let temperature := req.temperature.getD (7/10 : Rat)
  let prompt := truncatePrompt prompt0
  let response_text := gen (.str prompt) max_tokens temperature
  (.completionOk model_name response_text (pyWordCount prompt) (pyWordCount response_text),
   [⟨.str prompt, max_tokens, temperature⟩])

/-- `handle_ollama_generate` (`POST /api/generate`): same request reading as
`handle_completion`, Ollama-shaped response. -/
def handle_ollama_generate (model_name : String) (gen : PyVal → Int → Rat → String)
    (req : CompletionRequest) : HttpOutcome × List GenCall :=
  let prompt0 := req.prompt.getD ""
  let max_tokens := min (req.max_tokens.getD 512) 32768
  let temperature := req.temperature.getD (7/10 : Rat)
  let prompt := truncatePrompt prompt0
  let response_text := gen (.str prompt) max_tokens temperature
  (.ollamaOk model_name response_text, [⟨.str prompt, max_tokens, temperature⟩])

/-- One message of the `messages` array of a chat request, with `none` for an
absent `role` / `content` key. -/
structure ChatMessage where
  role : Option String
  content : Option String

/-- The fields of the JSON body that `handle_chat_completion` reads. -/
structure ChatRequest where
  messages : Option (List ChatMessage)
  max_tokens : Option Int
  temperature : Option Rat

/-- The prompt built at line 115 of the server:
`"\n".join([f"{msg.get('role', 'user')}: {msg.get('content', '')}" for msg in messages])`. -/
def chatPrompt (messages : List ChatMessage) : String :=
  String.intercalate "\n"
    (messages.map (fun msg => msg.role.getD "user" ++ ": " ++ msg.content.getD ""))

/-- The `completion_request` dictionary built by `handle_chat_completion`
(lines 118-122); note the absence of the 32768 cap at this point. -/
def chat_completion_request (req : ChatRequest) : CompletionRequest :=
  { prompt := some (chatPrompt (req.messages.getD []))
    max_tokens := some (req.max_tokens.getD 512)
    temperature := some (req.temperature.getD (7/10 : Rat)) }

/-- The attribute names defined on the request-handler class (its own methods
plus nothing relevant inherited: neither `BaseHTTPRequestHandler` nor its
bases define `handle_completion_internal`). -/
def handlerClassMethods : List String :=
  ["__init__", "do_POST", "do_GET", "handle_completion", "handle_chat_completion",
   "handle_models", "handle_health", "handle_ollama_generate", "handle_ollama_chat"]

/-- The `str(e)` of the `AttributeError` raised by
`self.handle_completion_internal` (Python renders the class and attribute
names in quotes; the quotes are elided here). -/
def attributeErrorMessage : String :=
  "Handler object has no attribute handle_completion_internal"

/-- `handle_chat_completion` (`POST /v1/chat/completions`): builds the joined
prompt and the completion request, then attempts
`self.handle_completion_internal(completion_request)`.  Attribute lookup is
modelled against `handlerClassMethods`; a missing attribute raises
`AttributeError`, which the surrounding `except` turns into
`send_error 500 ...`. -/
def handle_chat_completion (model_name : String) (gen : PyVal → Int → Rat → String)
    (req : ChatRequest) : HttpOutcome × List GenCall :=
  let completion_request := chat_completion_request req
  if handlerClassMethods.contains "handle_completion_internal" then
    handle_completion model_name gen completion_request
  else
    (.httpError 500 ("Internal Server Error: " ++ attributeErrorMessage), [])

/-- Numeric value of a hexadecimal digit. -/
def hexDigitVal (c : Char) : Option Nat :=
  if '0' ≤ c ∧ c ≤ '9' then some (c.toNat - '0'.toNat)
  else if 'a' ≤ c ∧ c ≤ 'f' then some (c.toNat - 'a'.toNat + 10)
  else if 'A' ≤ c ∧ c ≤ 'F' then some (c.toNat - 'A'.toNat + 10)
  else none

/-- Percent-decoding as performed by `urllib.parse.unquote`: a valid `%XX`
escape becomes the character with that code, an invalid escape is kept
literally.  (Python decodes escape sequences at the byte level and re-decodes
UTF-8; the embedding models the single-byte escapes, which is exact on the
ASCII range the claims exercise.) -/
def unquoteChars : List Char → List Char
  | [] => []
  | '%' :: a :: b :: rest =>
      match hexDigitVal a, hexDigitVal b with
      | some ha, some hb => Char.ofNat (16 * ha + hb) :: unquoteChars rest
      | _, _ => '%' :: unquoteChars (a :: b :: rest)
  | c :: rest => c :: unquoteChars rest

/-- `urllib.parse.unquote_plus`: replace `+` by a space, then percent-decode. -/
def unquote_plus (s : String) : String :=
  String.mk (unquoteChars (s.data.map (fun c => if c = '+' then ' ' else c)))

/-- Auxiliary for `splitOnChar`: accumulate the current piece (reversed). -/
def splitOnCharAux (c : Char) : List Char → List Char → List (List Char)
  | [], acc => [acc.reverse]
  | x :: xs, acc =>
      if x = c then acc.reverse :: splitOnCharAux c xs []
      else splitOnCharAux c xs (x :: acc)

/-- Python `s.split(c)` for a one-character separator `c` (also the behaviour
of `String.splitOn` for that separator): defined by structural recursion so
that it reduces in the kernel. -/
def splitOnChar (c : Char) (s : String) : List String :=
  (splitOnCharAux c s.data []).map String.mk

/-- `urllib.parse.parse_qsl(qs)` with its default arguments: split on `&`;
a field without `=` or with an empty value is silently dropped
(`keep_blank_values=False`); names and values are `unquote_plus`-decoded.
With these defaults `parse_qsl` never raises on a `str` argument. -/
def parse_qsl (qs : String) : List (String × String) :=
  (splitOnChar '&' qs).filterMap (fun name_value =>
    if name_value = "" then none
    else
      match splitOnChar '=' name_value with
      | [] => none
      | [_] => none
      | name :: rest =>
          let value := String.intercalate "=" rest
          if value = "" then none
          else some (unquote_plus name, unquote_plus value))

/-- The form-data branch of `handle_ollama_chat` (lines 213-218): build
`parse_qs(body)` and take `form_data[key][0]` for the first key among
`prompt`, `message`, `input`, `text` that is present, defaulting to `""`.
(`form_data[key][0]` is the first value parsed for `key`, i.e.
`(parse_qsl body).lookup key`.) -/
def ollamaFormPrompt (body : String) : String :=
  let form_data := parse_qsl body
  (["prompt", "message", "input", "text"].findSome? (fun key => form_data.lookup key)).getD ""

/-- `urllib.parse.parse_qs` with default arguments does not raise on a `str`
argument, so the form branch of `handle_ollama_chat` always produces a prompt;
its result is wrapped in `Except` because the source guards it with
`try ... except`. -/
def ollamaChatFormExtract (body : String) : Except String String :=
  .ok (ollamaFormPrompt body)

/-- The `elif 'prompt' in json_data: prompt = json_data['prompt']` /
`else: prompt = ""` arm of the ollama-chat extraction (lines 204-207). -/
def ollamaChatPromptFallback (json_data : PyVal) : Except String PyVal := do
  let hasPrompt ← pyContains json_data "prompt"
  if hasPrompt then pySubscript json_data "prompt"
  else .ok (.str "")

/-- The JSON branch of the ollama-chat prompt extraction (lines 202-207):
`if 'messages' in json_data and json_data['messages']:` take
`json_data['messages'][0].get('content', '')`; otherwise fall through to
`ollamaChatPromptFallback`.  Any `TypeError` / `AttributeError` raised on
non-dict shapes propagates (to the handler's `except`, hence a 500). -/
def ollamaChatJsonPrompt (json_data : PyVal) : Except String PyVal := do
  let hasMessages ← pyContains json_data "messages"
  if hasMessages then
    let msgs ← pySubscript json_data "messages"
    if pyTruthy msgs then
      let first ← pyIndexZero msgs
      pyDictGet first "content" (.str "")
    else
      ollamaChatPromptFallback json_data
  else
    ollamaChatPromptFallback json_data

/-- The full prompt extraction of `handle_ollama_chat` (lines 197-220).
`parsed` is the result of `json.loads(body)`, `none` modelling a raised
`JSONDecodeError`; in that case the form branch runs, and the raw-body
fallback (`post_data.decode('utf-8').strip()`) runs only when form parsing
itself raises — which, with `parse_qs`'s defaults, it never does. -/
def ollamaChatExtract (parsed : Option PyVal) (body : String) : Except String PyVal :=
  match parsed with
  | some json_data => ollamaChatJsonPrompt json_data
  | none =>
      match ollamaChatFormExtract body with
      | .ok p => .ok (.str p)
      | .error _ => .ok (.str (pyStrip body))

/-- Python `v[-n:]` on the modelled values: strings and lists slice, a
dictionary raises `TypeError` (slices are unhashable keys). -/
def pySliceLastVal (n : Nat) : PyVal → Except String PyVal
  | .str s => .ok (.str (pySliceLast n s))
  | .list xs => .ok (.list (xs.drop (xs.length - n)))
  | _ => .error "TypeError: unhashable type slice"

/-- Lines 230-232 of `handle_ollama_chat` applied to the extracted prompt
value: `if len(prompt) > 50000: prompt = prompt[-8000:]`.  `len` raises
`TypeError` on truthy non-sized values (e.g. a JSON number in the `prompt`
field). -/
def pyTruncateForGen (v : PyVal) : Except String PyVal := do
  let n ← pyLen v
  if n > 50000 then pySliceLastVal 8000 v else .ok v

/-- `handle_ollama_chat` (`POST /api/chat`): extract the prompt, reject a
falsy prompt with `send_error 400`, otherwise truncate, call the model
manager with the fixed `max_tokens = 3000` and `temperature = 0.7`, and
return the stripped response in Ollama shape.  Any exception on the way is
turned into `send_error 500` by the surrounding `except`. -/
def handle_ollama_chat (model_name : String) (gen : PyVal → Int → Rat → String)
    (parsed : Option PyVal) (body : String) : HttpOutcome × List GenCall :=
  match ollamaChatExtract parsed body with
  | .error e => (.httpError 500 ("Internal Server Error: " ++ e), [])
  | .ok promptVal =>
      if pyTruthy promptVal then
        match pyTruncateForGen promptVal with
        | .error e => (.httpError 500 ("Internal Server Error: " ++ e), [])
        | .ok prompt =>
            let response_text := pyStrip (gen prompt 3000 (7/10 : Rat))
            (.ollamaOk model_name response_text, [⟨prompt, 3000, (7/10 : Rat)⟩])
      else
        (.httpError 400 "No prompt provided", [])

/-- An observable action of `generate_with_memory_management` against the MLX
runtime: a cache flush (`mx.metal.clear_cache()`) or the blocking call to
`mlx_lm.generate`. -/
inductive MgrEvent where
  | clearCache
  | backendGenerate (prompt : String) (max_tokens : Int)
deriving Repr, DecidableEq

/-- `MemoryOptimizedModelManager.generate_with_memory_management` (lines
291-321), with the MLX runtime abstracted as `backend` (returning `.error e`
when `mlx_lm.generate` raises an exception with message `e`).  Returns the
string handed back to the caller together with the runtime actions in program
order.  The `temperature` parameter is accepted and ignored, exactly as in the
source (it is never passed to `generate`).  When MLX is unavailable the stub
string echoing `prompt[:100]` is returned without touching the runtime. -/
def generate_with_memory_management (mlx_available : Bool)
    (backend : String → Int → Except String String)
    (prompt : String) (max_tokens : Int) (temperature : Rat) : String × List MgrEvent :=
  if ¬ mlx_available then
    ("MLX not available. Would process: " ++ prompt.take 100 ++ "...", [])
  else
    match backend prompt max_tokens with
    | .ok response =>
        (response, [.clearCache, .backendGenerate prompt max_tokens, .clearCache])
    | .error e =>
        ("Error generating response: " ++ e,
         [.clearCache, .backendGenerate prompt max_tokens, .clearCache])

/-- The mutable state of `MemoryOptimizedModelManager` that the GET handlers
can observe: the configured model name and whether `load_model` has populated
the model/tokenizer handles. -/
structure ManagerState where
  model_name : String
  model_loaded : Bool
  tokenizer_loaded : Bool
deriving Repr, DecidableEq

/-- Outcome of a GET request: the one-entry model list (HTTP 200, JSON), the
health probe (HTTP 200, `text/plain`), or `send_error 404`. -/
inductive GetOutcome where
  | modelsOk (modelId : String)
  | healthOk (body : String)
  | notFound (message : String)
deriving Repr, DecidableEq

/-- HTTP status of a GET outcome. -/
def getStatusOf : GetOutcome → Nat
  | .modelsOk _ => 200
  | .healthOk _ => 200
  | .notFound _ => 404

/-- `do_GET` (lines 51-57) together with `handle_models` and `handle_health`:
dispatch on the path; `/health` answers 200 `OK` reading nothing from the
manager; `/v1/models` echoes the model name (or `unknown` when no manager was
injected); anything else is a 404. -/
def do_GET (manager : Option ManagerState) (path : String) : GetOutcome :=
  if path = "/v1/models" then
    .modelsOk (match manager with | some m => m.model_name | none => "unknown")
  else if path = "/health" then
    .healthOk "OK"
  else
    .notFound "Not Found"

/-- Where a request thread is in `generate_with_memory_management`'s critical
section: before `with self.lock` (`idle`), holding the lock before the
`generate` call (`locked`), inside the blocking `generate` call
(`generating`), or after `generate` returned but before the lock is released
(`afterGen`). -/
inductive ThreadPhase where
  | idle
  | locked
  | generating
  | afterGen
deriving Repr, DecidableEq

/-- An event of the concurrency model: thread `t` acquires `self.lock`, enters
the backend `generate` call, returns from it (normally or by raising), or
releases the lock at the end of the `with` block. -/
inductive LockEvent where
  | acquire (t : Nat)
  | genStart (t : Nat)
  | genEnd (t : Nat)
  | release (t : Nat)
deriving Repr, DecidableEq

/-- Global state of the concurrency model: the lock holder (`threading.Lock`
admits at most one) and each thread's phase (absent threads are `idle`). -/
structure LockState where
  holder : Option Nat
  phases : List (Nat × ThreadPhase)
deriving Repr, DecidableEq

/-- Phase of thread `t`. -/
def phaseOf (s : LockState) (t : Nat) : ThreadPhase :=
  (s.phases.lookup t).getD .idle

/-- Record a new phase for thread `t` (the phase list is consulted
front-first, so the new entry shadows older ones). -/
def setPhase (s : LockState) (t : Nat) (p : ThreadPhase) : LockState :=
  { s with phases := (t, p) :: s.phases }

/-- One step of the concurrency model.  The side conditions are exactly the
semantics of `threading.Lock` (an `acquire` succeeds only when no thread holds
the lock) plus the program order of `generate_with_memory_management`
(`generate` is called once, strictly inside the `with self.lock` block, and
the lock is released only after the call has returned or raised).  An event
whose side condition fails is not enabled (`none`). -/
def lockStep (s : LockState) : LockEvent → Option LockState
  | .acquire t =>
      if s.holder = none ∧ phaseOf s t = .idle then
        some { setPhase s t .locked with holder := some t }
      else none
  | .genStart t =>
      if s.holder = some t ∧ phaseOf s t = .locked then
        some (setPhase s t .generating)
      else none
  | .genEnd t =>
      if phaseOf s t = .generating then
        some (setPhase s t .afterGen)
      else none
  | .release t =>
      if s.holder = some t ∧ phaseOf s t = .afterGen then
        some { setPhase s t .idle with holder := none }
      else none

/-- Run a sequence of events from a state; `none` when some event was not
enabled. -/
def lockRun (s : LockState) : List LockEvent → Option LockState
  | [] => some s
  | e :: es =>
      match lockStep s e with
      | some s2 => lockRun s2 es
      | none => none

/-- The initial state: lock free, every thread idle. -/
def initLock : LockState := ⟨none, []⟩

/-- The invariant of the lock model: any thread that is past `acquire` and
before `release` is the lock holder. -/
def LockInv (s : LockState) : Prop :=
  ∀ t, phaseOf s t ≠ .idle → s.holder = some t

/-- The JSON payload the Prompt Helper Client POSTs to
`{server_url}/v1/completions`. -/
structure ApiPayload where
  url : String
  model : String
  prompt : String
  max_tokens : Int
deriving Repr, DecidableEq

/-- Behaviour of the HTTP transport for the client's single POST: the
`requests.post` call times out, fails to connect, returns a 200 whose JSON
carries the given `choices[].text` list, returns a non-200 status, or raises
some other exception. -/
inductive Transport where
  | timeout
  | connectionError
  | httpOk (choices : List String)
  | httpErr (status : Nat) (body : String)
  | otherError (message : String)

/-- Result of `call_mlx_api`: the returned `Optional[str]`, the POSTs
attempted (payloads passed to `requests.post`), and the lines written to
standard error. -/
structure ApiCallResult where
  result : Option String
  requests : List ApiPayload
  stderr : List String
deriving Repr, DecidableEq

/-- The client-side prompt truncation in `call_mlx_api` (lines 21-23):
`if len(prompt) > 8000: prompt = prompt[-8000:]`. -/
def clientTruncate (p : String) : String :=
  if p.length > 8000 then pySliceLast 8000 p else p

/-- `call_mlx_api` of `mlx_email_helper.py`: truncate the prompt at 8000
characters, POST the payload, and map the transport outcome to the
`Optional[str]` result and stderr reporting of the source. -/
def call_mlx_api (prompt0 : String) (max_tokens : Int) (server_url : String)
    (transport : Transport) : ApiCallResult :=
  let truncated := prompt0.length > 8000
  let prompt := clientTruncate prompt0
  let infoLines := if truncated then ["[INFO] Truncated prompt to 8000 characters"] else []
  let payload : ApiPayload :=
    ⟨server_url ++ "/v1/completions", "mlx-community/gemma-3-12b-it-4bit", prompt, max_tokens⟩
  match transport with
  | .httpOk (c :: _) => ⟨some (pyStrip c), [payload], infoLines⟩
  | .httpOk [] => ⟨none, [payload], infoLines ++ ["[ERROR] Unexpected response format"]⟩
  | .httpErr status body =>
      ⟨none, [payload], infoLines ++ ["[ERROR] HTTP " ++ toString status ++ ": " ++ body]⟩
  | .timeout => ⟨none, [payload], infoLines ++ ["[ERROR] Request timed out"]⟩
  | .connectionError =>
      ⟨none, [payload],
       infoLines ++ ["[ERROR] Could not connect to MLX server. Is it running on port 8080?"]⟩
  | .otherError m => ⟨none, [payload], infoLines ++ ["[ERROR] " ++ m]⟩

/-- The `--action` choices of the client. -/
inductive ClientAction where
  | summarize
  | reply
  | custom
deriving Repr, DecidableEq

/-- The parsed command-line arguments of the client that the modelled code
reads (`--input-file` handling happens before the modelled fragment: `content`
is the text read from the file or stdin). -/
structure ClientArgs where
  action : ClientAction
  promptArg : Option String
  max_tokens : Int
  server_url : String

/-- The prompt `main` constructs for a given action (the `custom` template
when `--prompt` is absent is irrelevant: that path exits before building
one). -/
def clientPrompt (args : ClientArgs) (content : String) : String :=
  match args.action with
  | .summarize => "Summarize this email in 2-3 sentences:\n\n" ++ content
  | .reply => "Write a brief, professional reply to this email:\n\n" ++ content ++ "\n\nReply:"
  | .custom => args.promptArg.getD "" ++ "\n\n" ++ content

/-- Observable effects of one client run: process exit code, stdout lines,
stderr lines, POSTs attempted. -/
structure ClientRun where
  exitCode : Nat
  stdout : List String
  stderr : List String
  requests : List ApiPayload
deriving Repr, DecidableEq

/-- The tail of `main`: `if result: print(result) else: sys.exit(1)` (an empty
returned string is falsy and also exits 1). -/
def clientFinish (r : ApiCallResult) : ClientRun :=
  match r.result with
  | some text => if text = "" then ⟨1, [], r.stderr, r.requests⟩ else ⟨0, [text], r.stderr, r.requests⟩
  | none => ⟨1, [], r.stderr, r.requests⟩

/-- `summarize_email`: note that it forwards only prompt and max_tokens, so
the POST always goes to the default server URL. -/
def summarize_email (content : String) (max_tokens : Int) (transport : Transport) : ApiCallResult :=
  call_mlx_api ("Summarize this email in 2-3 sentences:\n\n" ++ content) max_tokens
    "http://localhost:8080" transport

/-- `generate_reply`: like `summarize_email`, always the default server URL. -/
def generate_reply (content : String) (max_tokens : Int) (transport : Transport) : ApiCallResult :=
  call_mlx_api ("Write a brief, professional reply to this email:\n\n" ++ content ++ "\n\nReply:")
    max_tokens "http://localhost:8080" transport

/-- `main` of `mlx_email_helper.py` after the input text has been read
(`content` is the file or stdin text): the empty-input guard, the action
dispatch, and the final result handling. -/
def clientMain (args : ClientArgs) (content : String) (transport : Transport) : ClientRun :=
  if pyStrip content = "" then
    ⟨1, [], ["[ERROR] No input provided"], []⟩
  else
    match args.action with
    | .summarize => clientFinish (summarize_email content args.max_tokens transport)
    | .reply => clientFinish (generate_reply content args.max_tokens transport)
    | .custom =>
        match args.promptArg with
        | none => ⟨1, [], ["[ERROR] --prompt required for custom action"], []⟩
        | some p =>
            clientFinish
              (call_mlx_api (p ++ "\n\n" ++ content) args.max_tokens args.server_url transport)

/-- A concrete stand-in for `generate_with_memory_management`'s behaviour,
used to instantiate handler theorems at closed inputs. -/
def genStub : PyVal → Int → Rat → String := fun _ _ _ => "stub output"

theorem string_length_drop (s : String) (n : Nat) : (s.drop n).length = s.length - n := by
  cases s with
  | mk data => simp [String.length, String.drop_eq]

theorem pySliceLast_length (n : Nat) (s : String) :
    (pySliceLast n s).length = min n s.length := by
  simp only [pySliceLast, string_length_drop]
  omega

theorem take_append_pySliceLast (n : Nat) (s : String) :
    s.take (s.length - n) ++ pySliceLast n s = s := by
  apply String.ext
  simp [pySliceLast, String.data_append, String.data_take, String.data_drop,
    List.take_append_drop]

/-- C2: every POST to `/v1/chat/completions` whose body is valid JSON makes the
handler attempt `self.handle_completion_internal`, a method defined nowhere on
the handler class, so the request is answered with HTTP 500 and the model
manager is never invoked; in particular no well-formed chat request receives a
200 response. -/
theorem chat_completion_always_500 (model_name : String) (gen : PyVal → Int → Rat → String)
    (req : ChatRequest) :
    handle_chat_completion model_name gen req
        = (.httpError 500 ("Internal Server Error: " ++ attributeErrorMessage), [])
      ∧ statusOf (handle_chat_completion model_name gen req).1 = 500
      ∧ (handle_chat_completion model_name gen req).2 = [] :=
  ⟨rfl, rfl, rfl⟩

/-- C4: whenever the backend `generate` call raises,
`generate_with_memory_management` does not propagate the exception: the trace
shows the cache cleared again after the failing call, and the caller receives
the plain string `"Error generating response: " ++ e` — indistinguishable (in
type and shape) from a backend that genuinely generated that text, as the
final conjunct shows. -/
theorem generation_error_swallowed (backend : String → Int → Except String String)
    (prompt : String) (max_tokens : Int) (temperature : Rat) (e : String)
    (h : backend prompt max_tokens = .error e) :
    generate_with_memory_management true backend prompt max_tokens temperature
        = ("Error generating response: " ++ e,
           [.clearCache, .backendGenerate prompt max_tokens, .clearCache])
      ∧ generate_with_memory_management true backend prompt max_tokens temperature
        = generate_with_memory_management true
            (fun _ _ => .ok ("Error generating response: " ++ e))
            prompt max_tokens temperature := by
  constructor
  · simp [generate_with_memory_management, h]
  · simp [generate_with_memory_management, h]

/-- Witness for `generation_error_swallowed` at a concrete failing backend. -/
theorem generation_error_swallowed_witness :
    ((fun _ _ => Except.error "boom") "p" (5 : Int) = (Except.error "boom" : Except String String))
      ∧ generate_with_memory_management true (fun _ _ => .error "boom") "p" 5 0
        = ("Error generating response: boom",
           [.clearCache, .backendGenerate "p" 5, .clearCache]) :=
  ⟨rfl, (generation_error_swallowed (fun _ _ => .error "boom") "p" 5 0 "boom" rfl).1⟩

/-- C8: every GET of `/health` is answered 200 with plain-text body `OK`, for
every state of the model manager, including the absence of one. -/
theorem health_always_ok (manager : Option ManagerState) :
    do_GET manager "/health" = .healthOk "OK"
      ∧ getStatusOf (do_GET manager "/health") = 200 :=
  ⟨rfl, rfl⟩

/-- C9: when the input text (stdin or the named file) is empty or
whitespace-only, the client prints the `No input provided` error to standard
error, exits with status 1, and attempts no HTTP request. -/
theorem empty_input_no_request (args : ClientArgs) (content : String) (transport : Transport)
    (h : pyStrip content = "") :
    clientMain args content transport = ⟨1, [], ["[ERROR] No input provided"], []⟩ := by
  simp [clientMain, h]

/-- Witness for `empty_input_no_request` on a whitespace-only input. -/
theorem empty_input_no_request_witness :
    (pyStrip "  \n " = "")
      ∧ clientMain ⟨.summarize, none, 150, "http://localhost:8080"⟩ "  \n " .timeout
        = ⟨1, [], ["[ERROR] No input provided"], []⟩ :=
  ⟨by decide, empty_input_no_request _ _ _ (by decide)⟩

theorem pyTruncateForGen_str (p : String) :
    pyTruncateForGen (.str p) = .ok (.str (truncatePrompt p)) := by
  simp only [pyTruncateForGen, pyLen, truncatePrompt, pySliceLastVal, bind, Except.bind]
  split <;> rfl

/-- C1 (amended): on `/v1/completions` and `/api/generate` the `max_tokens`
forwarded to the backend is `min(requested, 32768)` with 512 substituted for
an absent field; on `/v1/chat/completions` no backend call ever occurs (the
handler fails with 500 first); and on `/api/chat` every backend call carries
the fixed value 3000, ignoring the request's `max_tokens` entirely. -/
theorem max_tokens_forwarding :
    (∀ model_name gen req, (handle_completion model_name gen req).2.map GenCall.max_tokens
        = [min (req.max_tokens.getD 512) 32768])
      ∧ (∀ model_name gen req, (handle_ollama_generate model_name gen req).2.map GenCall.max_tokens
        = [min (req.max_tokens.getD 512) 32768])
      ∧ (∀ model_name gen req, (handle_chat_completion model_name gen req).2 = [])
      ∧ (∀ model_name gen parsed body c, c ∈ (handle_ollama_chat model_name gen parsed body).2 →
          c.max_tokens = 3000) := by
  refine ⟨fun _ _ _ => rfl, fun _ _ _ => rfl, fun _ _ _ => rfl, ?_⟩
  intro model_name gen parsed body c hc
  unfold handle_ollama_chat at hc
  split at hc
  · simp at hc
  · split at hc
    · split at hc
      · simp at hc
      · simp at hc; rw [hc]
    · simp at hc

/-- C1 counterexample: an `/api/chat` request whose JSON body carries
`max_tokens = 5` still produces a backend call with `max_tokens = 3000`,
whereas the claim requires `min(5, 32768) = 5`. -/
theorem max_tokens_ollama_chat_counterexample :
    (handle_ollama_chat "m" genStub
        (some (.dict [("prompt", .str "hi"), ("max_tokens", .int 5)]))
        "\x7b\"prompt\": \"hi\", \"max_tokens\": 5\x7d").2.map GenCall.max_tokens = [3000]
      ∧ (3000 : Int) ≠ min 5 32768 :=
  ⟨rfl, by decide⟩

/-- Witness for `max_tokens_forwarding`: its last conjunct applied to the
concrete `/api/chat` request above. -/
theorem max_tokens_forwarding_witness :
    (⟨.str "hi", 3000, (7/10 : Rat)⟩ : GenCall) ∈
        (handle_ollama_chat "m" genStub
          (some (.dict [("prompt", .str "hi"), ("max_tokens", .int 5)])) "x").2
      ∧ (⟨.str "hi", 3000, (7/10 : Rat)⟩ : GenCall).max_tokens = 3000 := by
  have hm : (⟨.str "hi", 3000, (7/10 : Rat)⟩ : GenCall) ∈
      (handle_ollama_chat "m" genStub
        (some (.dict [("prompt", .str "hi"), ("max_tokens", .int 5)])) "x").2 := by
    show _ ∈ [(⟨.str "hi", 3000, (7/10 : Rat)⟩ : GenCall)]
    exact List.mem_singleton.mpr rfl
  exact ⟨hm, max_tokens_forwarding.2.2.2 "m" genStub _ "x" _ hm⟩

theorem handle_ollama_chat_str (model_name : String) (gen : PyVal → Int → Rat → String)
    (parsed : Option PyVal) (body p : String)
    (hex : ollamaChatExtract parsed body = .ok (.str p)) (hp : p ≠ "") :
    handle_ollama_chat model_name gen parsed body
      = (.ollamaOk model_name (pyStrip (gen (.str (truncatePrompt p)) 3000 (7/10 : Rat))),
         [⟨.str (truncatePrompt p), 3000, (7/10 : Rat)⟩]) := by
  have hpt : pyTruthy (.str p) = true := by simp [pyTruthy, hp]
  simp only [handle_ollama_chat, hex, pyTruncateForGen_str, hpt, if_true]

/-- C3: on the three endpoints that reach the model manager, the submitted
prompt is `truncatePrompt` of the extracted prompt: unchanged when its length
is at most 50000 characters, and for longer prompts exactly the trailing
8000-character substring (the first two conjuncts state the truncation
semantics, the remaining ones that every handler submits exactly that); the
chat-completions endpoint submits nothing at all. -/
theorem prompt_truncation :
    (∀ p : String, p.length ≤ 50000 → truncatePrompt p = p)
      ∧ (∀ p : String, p.length > 50000 →
          truncatePrompt p = pySliceLast 8000 p
            ∧ (truncatePrompt p).length = 8000
            ∧ p.take (p.length - 8000) ++ truncatePrompt p = p)
      ∧ (∀ model_name gen req, (handle_completion model_name gen req).2.map GenCall.prompt
          = [.str (truncatePrompt (req.prompt.getD ""))])
      ∧ (∀ model_name gen req, (handle_ollama_generate model_name gen req).2.map GenCall.prompt
          = [.str (truncatePrompt (req.prompt.getD ""))])
      ∧ (∀ model_name gen req, (handle_chat_completion model_name gen req).2 = [])
      ∧ (∀ model_name gen parsed body p, ollamaChatExtract parsed body = .ok (.str p) →
          p ≠ "" →
          (handle_ollama_chat model_name gen parsed body).2.map GenCall.prompt
            = [.str (truncatePrompt p)]) := by
  refine ⟨?_, ?_, fun _ _ _ => rfl, fun _ _ _ => rfl, fun _ _ _ => rfl, ?_⟩
  · intro p hp
    simp [truncatePrompt, Nat.not_lt.mpr hp]
  · intro p hp
    have ht : truncatePrompt p = pySliceLast 8000 p := by simp [truncatePrompt, hp]
    refine ⟨ht, ?_, ?_⟩
    · rw [ht, pySliceLast_length]; omega
    · rw [ht, take_append_pySliceLast]
  · intro model_name gen parsed body p hex hp
    rw [handle_ollama_chat_str model_name gen parsed body p hex hp]
    rfl

/-- Witness for `prompt_truncation`: a short prompt passes unchanged, a
50001-character prompt is cut to 8000 characters, and a concrete `/api/chat`
form body is submitted truncated (i.e. unchanged, being short). -/
theorem prompt_truncation_witness :
    (("abc" : String).length ≤ 50000 ∧ truncatePrompt "abc" = "abc")
      ∧ ((String.mk (List.replicate 50001 'a')).length > 50000
          ∧ (truncatePrompt (String.mk (List.replicate 50001 'a'))).length = 8000)
      ∧ (ollamaChatExtract none "prompt=hi" = .ok (.str "hi")
          ∧ (handle_ollama_chat "m" genStub none "prompt=hi").2.map GenCall.prompt
            = [.str (truncatePrompt "hi")]) := by
  have hbig : (String.mk (List.replicate 50001 'a')).length = 50001 := by
    show (List.replicate 50001 'a').length = 50001
    exact List.length_replicate _ _
  refine ⟨⟨by decide, prompt_truncation.1 "abc" (by decide)⟩, ⟨?_, ?_⟩, ⟨rfl, ?_⟩⟩
  · omega
  · exact (prompt_truncation.2.1 (String.mk (List.replicate 50001 'a')) (by omega)).2.1
  · exact prompt_truncation.2.2.2.2.2 "m" genStub none "prompt=hi" "hi" rfl (by decide)

theorem intercalate_go_eq (sep : String) (as : List String) :
    ∀ acc, String.intercalate.go acc sep as
      = acc ++ (if as.isEmpty then "" else sep ++ String.intercalate sep as) := by
  induction as with
  | nil => intro acc; simp [String.intercalate.go]
  | cons a as ih =>
      intro acc
      have hgo : String.intercalate.go acc sep (a :: as)
          = String.intercalate.go (acc ++ sep ++ a) sep as := rfl
      have hint : String.intercalate sep (a :: as) = String.intercalate.go a sep as := rfl
      rw [hgo, ih, hint, ih]
      cases as with
      | nil => simp [String.append_assoc]
      | cons b bs => simp [String.append_assoc]

/-- C5: the OpenAI chat endpoint builds its prompt as the newline-join of
`role: content` lines with `role` defaulting to `user` and `content` to the
empty string: the singleton example yields `user: hi`, a two-message list is
joined with a newline, and the handler's completion request carries exactly
`chatPrompt` of the `messages` field. -/
theorem chat_prompt_join :
    (chat_completion_request ⟨some [⟨some "user", some "hi"⟩], none, none⟩).prompt
        = some "user: hi"
      ∧ chatPrompt [⟨none, none⟩] = "user: "
      ∧ chatPrompt [⟨some "a", some "x"⟩, ⟨some "b", some "y"⟩] = "a: x\nb: y"
      ∧ (∀ r c rest, chatPrompt (⟨r, c⟩ :: rest)
          = r.getD "user" ++ ": " ++ c.getD ""
            ++ (if rest.isEmpty then "" else "\n" ++ chatPrompt rest))
      ∧ (∀ req, (chat_completion_request req).prompt
          = some (chatPrompt (req.messages.getD []))) := by
  refine ⟨rfl, rfl, rfl, ?_, fun _ => rfl⟩
  intro r c rest
  have h1 : chatPrompt (⟨r, c⟩ :: rest)
      = String.intercalate.go (r.getD "user" ++ ": " ++ c.getD "") "\n"
          (rest.map (fun msg => msg.role.getD "user" ++ ": " ++ msg.content.getD "")) := rfl
  cases rest with
  | nil => rw [h1, intercalate_go_eq]; simp
  | cons m rs => rw [h1, intercalate_go_eq]; simp [chatPrompt]

theorem phaseOf_setPhase (s : LockState) (t : Nat) (p : ThreadPhase) (u : Nat) :
    phaseOf (setPhase s t p) u = if u = t then p else phaseOf s u := by
  by_cases h : u = t
  · subst h
    simp [phaseOf, setPhase, List.lookup_cons]
  · have hb : (u == t) = false := by simp [h]
    simp [phaseOf, setPhase, List.lookup_cons, hb, h]

theorem holder_setPhase (s : LockState) (t : Nat) (p : ThreadPhase) :
    (setPhase s t p).holder = s.holder := rfl

theorem lockInv_init : LockInv initLock := by
  intro t ht
  simp [phaseOf, initLock] at ht

theorem lockStep_inv {s s2 : LockState} {e : LockEvent} (hs : LockInv s)
    (h : lockStep s e = some s2) : LockInv s2 := by
  cases e with
  | acquire t =>
      simp only [lockStep] at h
      split at h
      · rename_i hcond
        obtain ⟨h1, _⟩ := hcond
        injection h with h2
        subst h2
        intro u hu
        rw [show phaseOf { setPhase s t .locked with holder := some t } u
              = phaseOf (setPhase s t .locked) u from rfl, phaseOf_setPhase] at hu
        by_cases hut : u = t
        · subst hut; rfl
        · rw [if_neg hut] at hu
          exact absurd (h1 ▸ hs u hu) (by simp)
      · exact absurd h (by simp)
  | genStart t =>
      simp only [lockStep] at h
      split at h
      · rename_i hcond
        obtain ⟨h1, _⟩ := hcond
        injection h with h2
        subst h2
        intro u hu
        rw [phaseOf_setPhase] at hu
        rw [holder_setPhase]
        by_cases hut : u = t
        · subst hut; exact h1
        · rw [if_neg hut] at hu
          exact hs u hu
      · exact absurd h (by simp)
  | genEnd t =>
      simp only [lockStep] at h
      split at h
      · rename_i hcond
        injection h with h2
        subst h2
        intro u hu
        rw [phaseOf_setPhase] at hu
        rw [holder_setPhase]
        by_cases hut : u = t
        · subst hut
          exact hs u (by rw [hcond]; simp)
        · rw [if_neg hut] at hu
          exact hs u hu
      · exact absurd h (by simp)
  | release t =>
      simp only [lockStep] at h
      split at h
      · rename_i hcond
        obtain ⟨h1, _⟩ := hcond
        injection h with h2
        subst h2
        intro u hu
        rw [show phaseOf { setPhase s t .idle with holder := none } u
              = phaseOf (setPhase s t .idle) u from rfl, phaseOf_setPhase] at hu
        by_cases hut : u = t
        · subst hut
          rw [if_pos rfl] at hu
          exact absurd rfl hu
        · rw [if_neg hut] at hu
          have := hs u hu
          rw [h1] at this
          injection this with h3
          exact absurd h3.symm hut
      · exact absurd h (by simp)

theorem lockRun_inv {evs : List LockEvent} {s s2 : LockState} (hs : LockInv s)
    (h : lockRun s evs = some s2) : LockInv s2 := by
  induction evs generalizing s with
  | nil =>
      simp only [lockRun] at h
      injection h with h2
      subst h2
      exact hs
  | cons e es ih =>
      simp only [lockRun] at h
      cases hst : lockStep s e with
      | none => rw [hst] at h; exact absurd h (by simp)
      | some s1 => rw [hst] at h; exact ih (lockStep_inv hs hst) h

/-- C7: backend generation is strictly serialized.  In the trace model —
whose steps are exactly `threading.Lock`'s semantics plus the program order of
`generate_with_memory_management` (the `generate` call lies strictly inside
the `with self.lock` block) — any state reachable by a valid schedule of any
number of threads has at most one thread inside the backend `generate` call;
equivalently, no two generate start/end intervals overlap. -/
theorem generation_serialized (evs : List LockEvent) (s : LockState)
    (h : lockRun initLock evs = some s) (t u : Nat)
    (ht : phaseOf s t = .generating) (hu : phaseOf s u = .generating) : t = u := by
  have hinv : LockInv s := lockRun_inv lockInv_init h
  have h1 := hinv t (by rw [ht]; simp)
  have h2 := hinv u (by rw [hu]; simp)
  rw [h1] at h2
  injection h2

/-- Witness for `generation_serialized`: a concrete two-thread schedule in
which thread 3 acquires the lock and starts generating. -/
theorem generation_serialized_witness :
    lockRun initLock [.acquire 3, .genStart 3]
        = some ⟨some 3, [(3, .generating), (3, .locked)]⟩
      ∧ (3 : Nat) = 3 :=
  ⟨by decide,
   generation_serialized [.acquire 3, .genStart 3] ⟨some 3, [(3, .generating), (3, .locked)]⟩
     (by decide) 3 3 (by decide) (by decide)⟩

theorem lookup_some_any {β : Type} (l : List (String × β)) (k : String) (v : β)
    (h : l.lookup k = some v) : l.any (fun kv => kv.1 = k) = true := by
  induction l with
  | nil => simp [List.lookup] at h
  | cons kv rest ih =>
      rcases kv with ⟨k1, v1⟩
      rw [List.lookup_cons] at h
      by_cases hk : k = k1
      · subst hk; simp
      · have hb : (k == k1) = false := by simp [hk]
        rw [hb] at h
        simp [ih h, hk]

/-- C6 (amended): the ollama-chat prompt extraction tries, in order: the
first message's `content` when the body is JSON whose `messages` key holds a
non-empty array; else the JSON `prompt` field; else, when JSON parsing fails,
the first form field among `prompt`, `message`, `input`, `text` that carries a
`key=value` pair (`parse_qs` with its defaults never raises on a string, so
the raw-body fallback in the source is unreachable, and a raw body without
`=`, such as `hello world`, extracts the empty prompt); and whenever the
extracted prompt is falsy the server answers HTTP 400 without invoking the
model manager. -/
theorem ollama_chat_extraction :
    (∀ model_name gen parsed body v, ollamaChatExtract parsed body = .ok v →
        pyTruthy v = false →
        handle_ollama_chat model_name gen parsed body
          = (.httpError 400 "No prompt provided", []))
      ∧ (∀ d first rest, (d : List (String × PyVal)).lookup "messages"
            = some (.list (first :: rest)) →
          ollamaChatJsonPrompt (.dict d) = pyDictGet first "content" (.str ""))
      ∧ (∀ d pv, (d : List (String × PyVal)).any (fun kv => kv.1 = "messages") = false →
          d.lookup "prompt" = some pv →
          ollamaChatJsonPrompt (.dict d) = .ok pv)
      ∧ (∀ d, (d : List (String × PyVal)).any (fun kv => kv.1 = "messages") = false →
          d.any (fun kv => kv.1 = "prompt") = false →
          ollamaChatJsonPrompt (.dict d) = .ok (.str ""))
      ∧ (∀ body, ollamaChatExtract none body = .ok (.str (ollamaFormPrompt body)))
      ∧ ollamaFormPrompt "hello world" = ""
      ∧ ollamaFormPrompt "message=m&prompt=p" = "p" := by
  refine ⟨?_, ?_, ?_, ?_, fun _ => rfl, rfl, rfl⟩
  · intro model_name gen parsed body v hex hv
    simp only [handle_ollama_chat, hex, hv]
    simp
  · intro d first rest h
    have hany : d.any (fun kv => kv.1 = "messages") = true :=
      lookup_some_any d "messages" _ h
    simp only [ollamaChatJsonPrompt, pyContains, pySubscript, h, hany, bind, Except.bind,
      if_true, pyTruthy, pyIndexZero, List.isEmpty_cons, Bool.not_false]
    simp
  · intro d pv hany hp
    have hanyp : d.any (fun kv => kv.1 = "prompt") = true :=
      lookup_some_any d "prompt" _ hp
    simp only [ollamaChatJsonPrompt, ollamaChatPromptFallback, pyContains, pySubscript, hany,
      hanyp, hp, bind, Except.bind, Bool.false_eq_true, if_false, if_true]
  · intro d hany hanyp
    simp only [ollamaChatJsonPrompt, ollamaChatPromptFallback, pyContains, hany, hanyp,
      bind, Except.bind, Bool.false_eq_true, if_false]

/-- C6 counterexample: the raw non-JSON body `hello world` (on which
`json.loads` raises `JSONDecodeError`) does not extract the prompt
`hello world`: `parse_qs` returns no field for it, the extracted prompt is
empty, and the server answers 400 with no model-manager call. -/
theorem ollama_chat_raw_body_counterexample :
    handle_ollama_chat "m" genStub none "hello world"
      = (.httpError 400 "No prompt provided", []) := rfl

/-- Witness for `ollama_chat_extraction`: its first conjunct applied to the
empty raw body, whose extracted prompt is the falsy empty string. -/
theorem ollama_chat_extraction_witness :
    ollamaChatExtract none "" = .ok (.str "")
      ∧ pyTruthy (.str "") = false
      ∧ handle_ollama_chat "m" genStub none ""
        = (.httpError 400 "No prompt provided", []) :=
  ⟨rfl, rfl, ollama_chat_extraction.1 "m" genStub none "" (.str "") rfl rfl⟩

theorem clientTruncate_length (p : String) : (clientTruncate p).length ≤ 8000 := by
  unfold clientTruncate
  split
  · rw [pySliceLast_length]; omega
  · omega

theorem call_mlx_api_requests (p : String) (mt : Int) (url : String) (tr : Transport) :
    (call_mlx_api p mt url tr).requests
      = [⟨url ++ "/v1/completions", "mlx-community/gemma-3-12b-it-4bit", clientTruncate p, mt⟩] := by
  cases tr with
  | httpOk choices => cases choices <;> rfl
  | timeout => rfl
  | connectionError => rfl
  | httpErr s b => rfl
  | otherError m => rfl

theorem clientFinish_requests (r : ApiCallResult) :
    (clientFinish r).requests = r.requests := by
  rcases r with ⟨res, reqs, errs⟩
  cases res with
  | none => rfl
  | some text =>
      show (if text = "" then (⟨1, [], errs, reqs⟩ : ClientRun)
            else ⟨0, [text], errs, reqs⟩).requests = reqs
      split <;> rfl

/-- C10: every POST the client attempts carries `clientTruncate` of the
constructed prompt — the prompt itself when it is at most 8000 characters,
its trailing 8000 characters otherwise — so the server never receives more
than 8000 characters from the client (a stricter bound than the server's own
50000-character truncation threshold). -/
theorem client_truncates_before_post (args : ClientArgs) (content : String)
    (transport : Transport) (pl : ApiPayload)
    (hp : pl ∈ (clientMain args content transport).requests) :
    pl.prompt = clientTruncate (clientPrompt args content)
      ∧ pl.prompt.length ≤ 8000
      ∧ (8000 : Nat) < 50000 := by
  have hmain : pl.prompt = clientTruncate (clientPrompt args content) := by
    unfold clientMain at hp
    split at hp
    · simp at hp
    · cases hact : args.action with
      | summarize =>
          rw [hact] at hp
          rw [clientFinish_requests, summarize_email, call_mlx_api_requests] at hp
          simp at hp
          rw [hp, clientPrompt, hact]
      | reply =>
          rw [hact] at hp
          rw [clientFinish_requests, generate_reply, call_mlx_api_requests] at hp
          simp at hp
          rw [hp, clientPrompt, hact]
      | custom =>
          rw [hact] at hp
          cases hpa : args.promptArg with
          | none => rw [hpa] at hp; simp at hp
          | some p =>
              rw [hpa] at hp
              rw [clientFinish_requests, call_mlx_api_requests] at hp
              simp at hp
              rw [hp, clientPrompt, hact, hpa]
              rfl
  refine ⟨hmain, ?_, by omega⟩
  rw [hmain]
  exact clientTruncate_length _

/-- Witness for `client_truncates_before_post`: the payload of a concrete
summarize run. -/
theorem client_truncates_before_post_witness :
    (⟨"http://localhost:8080/v1/completions", "mlx-community/gemma-3-12b-it-4bit",
        "Summarize this email in 2-3 sentences:\n\nhello", 150⟩ : ApiPayload) ∈
        (clientMain ⟨.summarize, none, 150, "http://localhost:8080"⟩ "hello" .timeout).requests
      ∧ ("Summarize this email in 2-3 sentences:\n\nhello" : String).length ≤ 8000 := by
  have hp : (⟨"http://localhost:8080/v1/completions", "mlx-community/gemma-3-12b-it-4bit",
      "Summarize this email in 2-3 sentences:\n\nhello", 150⟩ : ApiPayload) ∈
      (clientMain ⟨.summarize, none, 150, "http://localhost:8080"⟩ "hello" .timeout).requests := by
    decide
  exact ⟨hp, (client_truncates_before_post _ _ _ _ hp).2.1⟩
